import Mathlib

/-!
Verification of the build/run/export orchestration layer of the reflex
repository (src/reflex/config.py, src/reflex/utils/exec.py,
src/reflex/utils/build.py) against its natural-language specification.

The Python code is shallowly embedded: pure computations become Lean
functions, stateful procedures become explicit traces of actions, Python
exceptions become `Except`.  Library collaborators used by the code
(urllib.parse.quote_plus, json.dumps, int(), bool(), str.split, str.strip,
os.walk, dict.update) are modelled faithfully at the level the claims
exercise.
-/

/-! ## Python primitive helpers -/

/-- The characters Python's str.strip() removes: space, \t, \n, \r, \v, \f. -/
def isPyWs (c : Char) : Bool :=
  c = ' ' || c = '\t' || c = '\n' || c = '\r' || c = Char.ofNat 11 || c = Char.ofNat 12

/-- Python str.strip(): whitespace removed from both ends. -/
def pyStrip (s : String) : String :=
  String.mk (((s.toList.dropWhile isPyWs).reverse.dropWhile isPyWs).reverse)

/-- Whether `sep` is a prefix of `l`; on success the remainder. -/
def dropPrefixL : List Char → List Char → Option (List Char)
  | [], l => some l
  | _ :: _, [] => none
  | p :: ps, c :: cs => if p = c then dropPrefixL ps cs else none

/-- Fuel-driven scanner of Python str.split(sep) for a nonempty sep: at
each position, either consume a separator occurrence and emit the piece
accumulated so far, or keep the character.  The fuel (at least the
remaining length) only makes the recursion structural. -/
def pySplitGo (sep : List Char) : Nat → List Char → List Char → List (List Char)
  | _, [], acc => [acc.reverse]
  | 0, l, acc => [acc.reverse ++ l]
  | fuel + 1, c :: cs, acc =>
    match dropPrefixL sep (c :: cs) with
    | some rest => acc.reverse :: pySplitGo sep fuel rest []
    | none => pySplitGo sep fuel cs (c :: acc)

/-- Python str.split(sep) for a nonempty separator. -/
def pySplit (sep s : String) : List String :=
  (pySplitGo sep.toList (s.toList.length + 1) s.toList []).map String.mk

/-- Python's substring test `pat in s`: a nonempty pattern occurs in `s`
iff splitting on it yields more than one piece. -/
def pyIn (pat s : String) : Bool :=
  if pat = "" then true else (pySplit pat s).length != 1

/-- Python str.upper() for the ASCII names the config uses. -/
def pyUpper (s : String) : String := String.mk (s.toList.map Char.toUpper)

def isPyDigit (c : Char) : Bool := '0' ≤ c && c ≤ '9'

/-- After the first digit of a Python integer literal: digits with single
underscores allowed between digits (as int() accepts since Python 3.6). -/
def pyDigitsRest : List Char → Bool
  | [] => true
  | '_' :: rest =>
    match rest with
    | [] => false
    | c :: r => isPyDigit c && pyDigitsRest r
  | c :: r => isPyDigit c && pyDigitsRest r

/-- A nonempty run of digits with single underscores between digits. -/
def pyDigitsRun : List Char → Bool
  | [] => false
  | c :: r => isPyDigit c && pyDigitsRest r

def digitsVal (l : List Char) : Nat :=
  l.foldl (fun a c => a * 10 + (c.toNat - 48)) 0

/-- Python int(str): strip whitespace, optional sign, decimal digits
(with underscores).  Returns none where CPython raises ValueError.
(Non-ASCII digits, accepted by CPython, are not modelled.) -/
def pyIntParse (s : String) : Option Int :=
  let t := ((s.toList.dropWhile isPyWs).reverse.dropWhile isPyWs).reverse
  match t with
  | '+' :: r => if pyDigitsRun r then some ((digitsVal (r.filter (fun c => c != '_')) : Int)) else none
  | '-' :: r => if pyDigitsRun r then some (-((digitsVal (r.filter (fun c => c != '_')) : Int))) else none
  | r => if pyDigitsRun r then some ((digitsVal (r.filter (fun c => c != '_')) : Int)) else none

/-- Python bool(str): any nonempty string is truthy. -/
def pyBool (s : String) : Bool := s != ""

/-- UTF-8 bytes of one character (as Nats), as Python encodes str for
urllib quoting. -/
def charUtf8 (c : Char) : List Nat :=
  let n := c.toNat
  if n < 128 then [n]
  else if n < 2048 then [192 + n / 64, 128 + n % 64]
  else if n < 65536 then [224 + n / 4096, 128 + (n / 64) % 64, 128 + n % 64]
  else [240 + n / 262144, 128 + (n / 4096) % 64, 128 + (n / 64) % 64, 128 + n % 64]

def utf8Bytes (s : String) : List Nat :=
  s.toList.foldr (fun c acc => charUtf8 c ++ acc) []

/-- Uppercase hex digit, as urllib percent-encoding prints it. -/
def hexDigitU (n : Nat) : Char :=
  if n < 10 then Char.ofNat (48 + n) else Char.ofNat (55 + n)

/-- urllib.parse.quote_plus's always-safe byte set: ASCII letters, digits,
and '_', '.', '-', '~'. -/
def isSafeByte (b : Nat) : Bool :=
  (65 ≤ b && b ≤ 90) || (97 ≤ b && b ≤ 122) || (48 ≤ b && b ≤ 57) ||
    b = 95 || b = 46 || b = 45 || b = 126

def quoteByte (b : Nat) : String :=
  if isSafeByte b then String.singleton (Char.ofNat b)
  else if b = 32 then "+"
  else String.mk ['%', hexDigitU (b / 16), hexDigitU (b % 16)]

/-- urllib.parse.quote_plus: percent-encode every unsafe UTF-8 byte,
rendering a space as '+'. -/
def quotePlus (s : String) : String :=
  ((utf8Bytes s).map quoteByte).foldl (fun a b => a ++ b) ""

/-- Lowercase hex digit, as json.dumps prints \u escapes. -/
def hexDigitL (n : Nat) : Char :=
  if n < 10 then Char.ofNat (48 + n) else Char.ofNat (87 + n)

def jsonU4 (n : Nat) : String :=
  String.mk ['\\', 'u', hexDigitL (n / 4096 % 16), hexDigitL (n / 256 % 16),
             hexDigitL (n / 16 % 16), hexDigitL (n % 16)]

/-- One character of a json.dumps string with ensure_ascii=True (the
default used in generate_sitemap_config). -/
def jsonEscChar (c : Char) : String :=
  if c = '"' then "\\\""
  else if c = '\\' then "\\\\"
  else if c = '\n' then "\\n"
  else if c = '\r' then "\\r"
  else if c = '\t' then "\\t"
  else if c.toNat = 8 then "\\b"
  else if c.toNat = 12 then "\\f"
  else if c.toNat < 32 || c.toNat > 126 then
    if c.toNat < 65536 then jsonU4 c.toNat
    else jsonU4 (55296 + (c.toNat - 65536) / 1024) ++ jsonU4 (56320 + (c.toNat - 65536) % 1024)
  else String.singleton c

/-- json.dumps of a Python str. -/
def jsonStr (s : String) : String :=
  "\"" ++ s.toList.foldr (fun c acc => jsonEscChar c ++ acc) "" ++ "\""

/-- Python truthiness of an Optional[str]: None and "" are falsy. -/
def pyTruthyStr : Option String → Bool
  | none => false
  | some s => s != ""

/-- Python truthiness of an Optional[int]: None and 0 are falsy. -/
def pyTruthyInt : Option Int → Bool
  | none => false
  | some n => n != 0

/-- f-string rendering of an Optional[str]. -/
def fstr : Option String → String
  | none => "None"
  | some s => s

/-- f-string rendering of an Optional[int]. -/
def fint : Option Int → String
  | none => "None"
  | some n => toString n

/-! ## DBConfig (src/reflex/config.py lines 16-121) -/

/-- Database config: engine, optional username/password/host (default ""),
optional port (default None), database name. -/
structure DBConfig where
  engine : String
  username : Option String := some ""
  password : Option String := some ""
  host : Option String := some ""
  port : Option Int := none
  database : String
deriving DecidableEq, Repr

namespace DBConfig

/-- The host part of get_url:
`f"{self.host}:{self.port}" if self.host and self.port else self.host or ""`. -/
def hostPart (c : DBConfig) : String :=
  if pyTruthyStr c.host && pyTruthyInt c.port then fstr c.host ++ ":" ++ fint c.port
  else c.host.getD ""

/-- DBConfig.get_url (config.py lines 104-121). -/
def get_url (c : DBConfig) : String :=
  let host := hostPart c
  let username := if pyTruthyStr c.username then quotePlus (c.username.getD "") else ""
  let password := if pyTruthyStr c.password then quotePlus (c.password.getD "") else ""
  let path :=
    if username != "" then
      (if password != "" then username ++ ":" ++ password ++ "@" ++ host
       else username ++ "@" ++ host)
    else host
  c.engine ++ "://" ++ path ++ "/" ++ c.database

end DBConfig

/-! ## Config (src/reflex/config.py lines 124-256) -/

/-- Modelled from the spec: the log verbosity enum `constants.LogLevel`
(its defining module is not among the given sources); a string-valued
enum whose constructor accepts exactly the member values. -/
inductive LogLevel where
  | debug
  | info
  | warning
  | error
  | critical
deriving DecidableEq, Repr

def LogLevel.value : LogLevel → String
  | .debug => "debug"
  | .info => "info"
  | .warning => "warning"
  | .error => "error"
  | .critical => "critical"

/-- Python `LogLevel(s)`: succeeds exactly on a member value. -/
def LogLevel.fromString (s : String) : Option LogLevel :=
  if s = "debug" then some .debug
  else if s = "info" then some .info
  else if s = "warning" then some .warning
  else if s = "error" then some .error
  else if s = "critical" then some .critical
  else none

/-- Modelled from the spec: `constants.DEFAULT_BUN_PATH`, the path to the
frontend-toolchain executable (its defining module is not among the given
sources); the concrete string is irrelevant to the claims. -/
def DEFAULT_BUN_PATH : String := "$HOME/.bun/bin/bun"

/-- The Config record with the declared field defaults of config.py lines
132-189.  `api_url` and `deploy_url` defaults are the f-strings evaluated
with the default ports, as in the class body. -/
structure Config where
  app_name : String
  loglevel : LogLevel := .info
  frontend_port : Int := 3000
  backend_port : Int := 8000
  api_url : String := "http://localhost:8000"
  deploy_url : Option String := some "http://localhost:3000"
  backend_host : String := "0.0.0.0"
  db_url : Option String := some "sqlite:///reflex.db"
  redis_url : Option String := none
  telemetry_enabled : Bool := true
  bun_path : String := DEFAULT_BUN_PATH
  cors_allowed_origins : List String := ["*"]
  tailwind : Option (List (String × String)) := none
  timeout : Int := 120
  next_compression : Bool := true
  event_namespace : Option String := none
  frontend_packages : List String := []
  rxdeploy_url : Option String := none
  username : Option String := none
deriving DecidableEq, Repr

/-- The keyword arguments of a Config(...) construction: an optional
typed override per declared field, plus presence flags for the three
deprecated keys (whose values the code never reads). -/
structure Kwargs where
  app_name : Option String := none
  loglevel : Option LogLevel := none
  frontend_port : Option Int := none
  backend_port : Option Int := none
  api_url : Option String := none
  deploy_url : Option (Option String) := none
  backend_host : Option String := none
  db_url : Option (Option String) := none
  redis_url : Option (Option String) := none
  telemetry_enabled : Option Bool := none
  bun_path : Option String := none
  cors_allowed_origins : Option (List String) := none
  tailwind : Option (Option (List (String × String))) := none
  timeout : Option Int := none
  next_compression : Option Bool := none
  event_namespace : Option (Option String) := none
  frontend_packages : Option (List String) := none
  rxdeploy_url : Option (Option String) := none
  username : Option (Option String) := none
  db_config : Bool := false
  admin_dash : Bool := false
  env_path : Bool := false
deriving Repr

/-- The ways a Config(...) construction raises: a pydantic validation
error for a missing required field, the ValueError of
check_deprecated_values (the spec's DeprecatedOptionError), the ValueError
of a failed `field.type_(env_var)` coercion (the spec's ConfigTypeError),
and the validation error of assigning an uncoercible string to a
container-typed field. -/
inductive ConfigError where
  | missingField (field : String)
  | deprecated (key msg : String)
  | coerce (field raw : String)
  | assign (field raw : String)
deriving DecidableEq, Repr

/-- The declared fields of Config, one constructor each. -/
inductive CField where
  | app_name
  | loglevel
  | frontend_port
  | backend_port
  | api_url
  | deploy_url
  | backend_host
  | db_url
  | redis_url
  | telemetry_enabled
  | bun_path
  | cors_allowed_origins
  | tailwind
  | timeout
  | next_compression
  | event_namespace
  | frontend_packages
  | rxdeploy_url
  | username
deriving DecidableEq, Repr

/-- `self.__fields__` iteration order: declaration order. -/
def fieldList : List CField :=
  [.app_name, .loglevel, .frontend_port, .backend_port, .api_url, .deploy_url,
   .backend_host, .db_url, .redis_url, .telemetry_enabled, .bun_path,
   .cors_allowed_origins, .tailwind, .timeout, .next_compression,
   .event_namespace, .frontend_packages, .rxdeploy_url, .username]

def fieldName : CField → String
  | .app_name => "app_name"
  | .loglevel => "loglevel"
  | .frontend_port => "frontend_port"
  | .backend_port => "backend_port"
  | .api_url => "api_url"
  | .deploy_url => "deploy_url"
  | .backend_host => "backend_host"
  | .db_url => "db_url"
  | .redis_url => "redis_url"
  | .telemetry_enabled => "telemetry_enabled"
  | .bun_path => "bun_path"
  | .cors_allowed_origins => "cors_allowed_origins"
  | .tailwind => "tailwind"
  | .timeout => "timeout"
  | .next_compression => "next_compression"
  | .event_namespace => "event_namespace"
  | .frontend_packages => "frontend_packages"
  | .rxdeploy_url => "rxdeploy_url"
  | .username => "username"

/-- A value one field slot can hold. -/
inductive FieldVal where
  | s (v : String)
  | os (v : Option String)
  | i (v : Int)
  | b (v : Bool)
  | lvl (v : LogLevel)
  | strs (v : List String)
  | dict (v : Option (List (String × String)))
deriving DecidableEq, Repr

def getField (c : Config) : CField → FieldVal
  | .app_name => .s c.app_name
  | .loglevel => .lvl c.loglevel
  | .frontend_port => .i c.frontend_port
  | .backend_port => .i c.backend_port
  | .api_url => .s c.api_url
  | .deploy_url => .os c.deploy_url
  | .backend_host => .s c.backend_host
  | .db_url => .os c.db_url
  | .redis_url => .os c.redis_url
  | .telemetry_enabled => .b c.telemetry_enabled
  | .bun_path => .s c.bun_path
  | .cors_allowed_origins => .strs c.cors_allowed_origins
  | .tailwind => .dict c.tailwind
  | .timeout => .i c.timeout
  | .next_compression => .b c.next_compression
  | .event_namespace => .os c.event_namespace
  | .frontend_packages => .strs c.frontend_packages
  | .rxdeploy_url => .os c.rxdeploy_url
  | .username => .os c.username

/-- setattr(self, key, value) for a value of the slot's shape (any other
shape leaves the record unchanged; coerceVal only produces matching
shapes). -/
def setField (c : Config) : CField → FieldVal → Config
  | .app_name, .s v => { c with app_name := v }
  | .loglevel, .lvl v => { c with loglevel := v }
  | .frontend_port, .i v => { c with frontend_port := v }
  | .backend_port, .i v => { c with backend_port := v }
  | .api_url, .s v => { c with api_url := v }
  | .deploy_url, .os v => { c with deploy_url := v }
  | .backend_host, .s v => { c with backend_host := v }
  | .db_url, .os v => { c with db_url := v }
  | .redis_url, .os v => { c with redis_url := v }
  | .telemetry_enabled, .b v => { c with telemetry_enabled := v }
  | .bun_path, .s v => { c with bun_path := v }
  | .cors_allowed_origins, .strs v => { c with cors_allowed_origins := v }
  | .tailwind, .dict v => { c with tailwind := v }
  | .timeout, .i v => { c with timeout := v }
  | .next_compression, .b v => { c with next_compression := v }
  | .event_namespace, .os v => { c with event_namespace := v }
  | .frontend_packages, .strs v => { c with frontend_packages := v }
  | .rxdeploy_url, .os v => { c with rxdeploy_url := v }
  | .username, .os v => { c with username := v }
  | _, _ => c

/-- `field.type_(env_var)` followed by the validated assignment
(config.py lines 246-256).  str-typed and Optional[str]-typed fields take
the raw string (pydantic's field.type_ for Optional[str] is str); int
fields go through int(); bool fields through bool() (never failing);
the loglevel enum accepts exactly its member values; for the
container-typed fields (List[str], Optional[Dict]) the raw string passes
str() but the validated assignment of a str to the container field raises,
outside the try block, so resolution fails. -/
def coerceVal : CField → String → Except ConfigError FieldVal
  | .app_name, raw => .ok (.s raw)
  | .loglevel, raw =>
    match LogLevel.fromString raw with
    | some l => .ok (.lvl l)
    | none => .error (.coerce "loglevel" raw)
  | .frontend_port, raw =>
    match pyIntParse raw with
    | some n => .ok (.i n)
    | none => .error (.coerce "frontend_port" raw)
  | .backend_port, raw =>
    match pyIntParse raw with
    | some n => .ok (.i n)
    | none => .error (.coerce "backend_port" raw)
  | .api_url, raw => .ok (.s raw)
  | .deploy_url, raw => .ok (.os (some raw))
  | .backend_host, raw => .ok (.s raw)
  | .db_url, raw => .ok (.os (some raw))
  | .redis_url, raw => .ok (.os (some raw))
  | .telemetry_enabled, raw => .ok (.b (pyBool raw))
  | .bun_path, raw => .ok (.s raw)
  | .cors_allowed_origins, raw => .error (.assign "cors_allowed_origins" raw)
  | .tailwind, raw => .error (.assign "tailwind" raw)
  | .timeout, raw =>
    match pyIntParse raw with
    | some n => .ok (.i n)
    | none => .error (.coerce "timeout" raw)
  | .next_compression, raw => .ok (.b (pyBool raw))
  | .event_namespace, raw => .ok (.os (some raw))
  | .frontend_packages, raw => .error (.assign "frontend_packages" raw)
  | .rxdeploy_url, raw => .ok (.os (some raw))
  | .username, raw => .ok (.os (some raw))

/-- One iteration of update_from_env (config.py lines 234-256): look the
field's upper-cased name up in the environment; if present, coerce and
assign. -/
def applyEnvVar (env : List (String × String)) (c : Config) (f : CField) :
    Except ConfigError Config :=
  match env.lookup (pyUpper (fieldName f)) with
  | none => .ok c
  | some raw =>
    match coerceVal f raw with
    | .error e => .error e
    | .ok v => .ok (setField c f v)

/-- The for-loop of update_from_env over the remaining fields: stop with
the raised error, or carry the updated config to the next field. -/
def updateFieldsFromEnv (env : List (String × String)) :
    Config → List CField → Except ConfigError Config
  | c, [] => .ok c
  | c, f :: rest =>
    match applyEnvVar env c f with
    | .error e => .error e
    | .ok c1 => updateFieldsFromEnv env c1 rest

/-- Config.update_from_env (config.py lines 227-256): iterate the
declared fields in order. -/
def update_from_env (env : List (String × String)) (c : Config) :
    Except ConfigError Config :=
  updateFieldsFromEnv env c fieldList

/-- Config.check_deprecated_values (config.py lines 206-225). -/
def check_deprecated_values (kw : Kwargs) : Except ConfigError Unit :=
  if kw.db_config then
    .error (.deprecated "db_config" "db_config is deprecated - use db_url instead")
  else if kw.admin_dash then
    .error (.deprecated "admin_dash"
      "admin_dash is deprecated in the config - pass it as a param to rx.App instead")
  else if kw.env_path then
    .error (.deprecated "env_path"
      "env_path is deprecated - use environment variables instead")
  else .ok ()

/-- super().__init__(**kwargs): pydantic construction.  Defaults are
overridden by supplied keyword values; the unknown deprecated keys are
ignored at this stage (pydantic's default extra-key behaviour); the one
required field, app_name, raises a validation error when missing. -/
def pydanticInit (kw : Kwargs) : Except ConfigError Config :=
  match kw.app_name with
  | none => .error (.missingField "app_name")
  | some a => .ok
    { app_name := a
      loglevel := kw.loglevel.getD .info
      frontend_port := kw.frontend_port.getD 3000
      backend_port := kw.backend_port.getD 8000
      api_url := kw.api_url.getD "http://localhost:8000"
      deploy_url := kw.deploy_url.getD (some "http://localhost:3000")
      backend_host := kw.backend_host.getD "0.0.0.0"
      db_url := kw.db_url.getD (some "sqlite:///reflex.db")
      redis_url := kw.redis_url.getD none
      telemetry_enabled := kw.telemetry_enabled.getD true
      bun_path := kw.bun_path.getD DEFAULT_BUN_PATH
      cors_allowed_origins := kw.cors_allowed_origins.getD ["*"]
      tailwind := kw.tailwind.getD none
      timeout := kw.timeout.getD 120
      next_compression := kw.next_compression.getD true
      event_namespace := kw.event_namespace.getD none
      frontend_packages := kw.frontend_packages.getD []
      rxdeploy_url := kw.rxdeploy_url.getD none
      username := kw.username.getD none }

/-- Config.__init__ (config.py lines 191-204): pydantic construction,
then check_deprecated_values, then update_from_env. -/
def Config.resolve (kw : Kwargs) (env : List (String × String)) :
    Except ConfigError Config :=
  match pydanticInit kw with
  | .error e => .error e
  | .ok c =>
    match check_deprecated_values kw with
    | .error e => .error e
    | .ok _ => update_from_env env c

def isOkE (r : Except ConfigError Config) : Bool :=
  match r with
  | .ok _ => true
  | .error _ => false

def isDeprecatedError (r : Except ConfigError Config) : Bool :=
  match r with
  | .error (.deprecated _ _) => true
  | _ => false

/-- Whether a deprecated key is among the kwargs. -/
def deprecatedRequested (kw : Kwargs) : Bool :=
  kw.db_config || kw.admin_dash || kw.env_path

/-- The key and message of the ValueError check_deprecated_values raises
first (db_config, then admin_dash, then env_path). -/
def firstDeprecated (kw : Kwargs) : String × String :=
  if kw.db_config then
    ("db_config", "db_config is deprecated - use db_url instead")
  else if kw.admin_dash then
    ("admin_dash", "admin_dash is deprecated in the config - pass it as a param to rx.App instead")
  else
    ("env_path", "env_path is deprecated - use environment variables instead")

/-! ## exec (src/reflex/utils/exec.py) -/

/-- The url run_process_and_launch_url prints for a matching line
(exec.py line 40): `line.split("url: ")[-1].strip()`. -/
def extractReadyUrl (line : String) : String :=
  pyStrip ((pySplit "url: " line).getLastD "")

/-- The payloads of the ready events run_process_and_launch_url emits
(exec.py lines 38-41): one `console.print(f"App running at: ...{url}")`
per streamed line containing the marker phrase. -/
def readyUrls (lines : List String) : List String :=
  lines.filterMap fun line =>
    if pyIn "ready started server on" line then some (extractReadyUrl line) else none

/-- Modelled from the spec: `constants.APP_VAR`, the attribute holding the
application object in the resolved module reference (its defining module
is not among the given sources). -/
def APP_VAR : String := "app"

/-- Modelled from the spec: `constants.SKIP_COMPILE_ENV_VAR`, the
environment flag signalling "skip recompilation" to the backend process
(its defining module is not among the given sources). -/
def SKIP_COMPILE_ENV_VAR : String := "__REFLEX_SKIP_COMPILE"

/-- run_backend_prod (exec.py lines 102-150): the (argv, env additions)
pair passed to processes.new_process.  Parameters: the platform flag
`constants.IS_WINDOWS`, the derived worker number
`processes.get_num_workers()`, the configuration's timeout field, the
app name, and the caller's host/port/loglevel. -/
def run_backend_prod (isWindows : Bool) (numWorkers : Nat) (timeoutCfg : Int)
    (appName host : String) (port : Int) (loglevel : LogLevel) :
    List String × List (String × String) :=
  let RUN_BACKEND_PROD :=
    ["gunicorn", "--worker-class", "uvicorn.workers.UvicornH11Worker", "--preload",
     "--timeout", toString timeoutCfg, "--log-level", "critical"]
  let RUN_BACKEND_PROD_WINDOWS := ["uvicorn", "--timeout-keep-alive", toString timeoutCfg]
  let app_module := appName ++ "." ++ appName ++ ":" ++ APP_VAR
  let command :=
    if isWindows then
      RUN_BACKEND_PROD_WINDOWS ++ ["--host", host, "--port", toString port, app_module]
    else
      RUN_BACKEND_PROD ++
        ["--bind", host ++ ":" ++ toString port, "--threads", toString numWorkers,
         app_module ++ "()"]
  (command ++ ["--log-level", LogLevel.value loglevel, "--workers", toString numWorkers],
   [(SKIP_COMPILE_ENV_VAR, "yes")])

/-- One observable step of run_frontend. -/
inductive RunAction where
  | startAssetWatch
  | validateDeps
  | consoleRule (msg : String)
  | setEnvVar (key value : String)
  | spawn (cmd : List String)
deriving DecidableEq, Repr

def isSpawn : RunAction → Bool
  | .spawn _ => true
  | _ => false

/-- run_frontend (exec.py lines 44-59) as the trace of its side effects,
in program order: start the asset watch, validate dependencies, print the
rule, set PORT (from the caller's port, or the configured frontend port
when the caller passes none), spawn the dev process. -/
def run_frontend (frontendPort : Int) (pm : String) (port : Option String) :
    List RunAction :=
  [.startAssetWatch, .validateDeps, .consoleRule "App Running",
   .setEnvVar "PORT" (match port with | none => toString frontendPort | some p => p),
   .spawn [pm, "run", "dev"]]

/-! ## build (src/reflex/utils/build.py) -/

/-- A JSON value as the manifest files use them. -/
inductive JVal where
  | s (v : String)
  | n (v : Int)
deriving DecidableEq, Repr

/-- A JSON object: key/value pairs in insertion order, keys unique. -/
abbrev JObj := List (String × JVal)

/-- The state of the file at a JSON path. -/
inductive JsonFile where
  | missing
  | empty
  | obj (o : JObj)
deriving DecidableEq, Repr

/-- Python dict assignment d[k] = v: replace the (unique) existing
occurrence in place, else append. -/
def dictSet : JObj → String → JVal → JObj
  | [], k, v => [(k, v)]
  | kv :: rest, k, v => if kv.1 == k then (k, v) :: rest else kv :: dictSet rest k v

/-- Python dict.update. -/
def dictUpdate (o upd : JObj) : JObj :=
  upd.foldl (fun acc kv => dictSet acc kv.1 kv.2) o

/-- The object json.load reads after touch / empty-file handling
(build.py lines 28-35): a missing or empty file holds `{}`. -/
def loadedObj : JsonFile → JObj
  | .missing => []
  | .empty => []
  | .obj o => o

/-- update_json_file (build.py lines 21-38): touch, write `{}` when the
file is empty, load, dict.update, dump. -/
def update_json_file (st : JsonFile) (upd : JObj) : JsonFile :=
  .obj (dictUpdate (loadedObj st) upd)

/-- set_env_json (build.py lines 48-57); the three endpoint URLs come from
`constants.Endpoint`, parameterised here. -/
def set_env_json (uploadUrl eventUrl pingUrl : String) (st : JsonFile) : JsonFile :=
  update_json_file st
    [("uploadUrl", .s uploadUrl), ("eventUrl", .s eventUrl), ("pingUrl", .s pingUrl)]

/-- set_reflex_project_hash (build.py lines 41-45); the 128-bit random
hash is parameterised. -/
def set_reflex_project_hash (projectHash : Int) (st : JsonFile) : JsonFile :=
  update_json_file st [("project_hash", .n projectHash)]

/-- First-match JSON-object lookup. -/
def jLookup (o : JObj) (k : String) : Option JVal :=
  (o.find? (fun kv => kv.1 == k)).map (fun kv => kv.2)

def jLookupF (st : JsonFile) (k : String) : Option JVal :=
  jLookup (loadedObj st) k

def isObjF : JsonFile → Bool
  | .obj _ => true
  | _ => false

/-- A directory tree entry, for the os.walk model. -/
inductive Entry where
  | file (n : String)
  | dir (n : String) (children : List Entry)

/-- A hidden name: starts with '.'. -/
def hiddenName (s : String) : Bool :=
  match s.toList with
  | [] => false
  | c :: _ => c = '.'

/-- os.path.join for the relative components the walk produces. -/
def pathJoin (a b : String) : String := a ++ "/" ++ b

/-- The plain-file names of one directory listing, in order. -/
def entryFiles (es : List Entry) : List String :=
  es.filterMap fun e =>
    match e with
    | .file n => some n
    | .dir _ _ => none

/-- What one os.walk level contributes to files_to_zip (build.py lines
128-132): hidden files dropped, then the excluded names dropped, each
joined to the level's root. -/
def keptFiles (filesEx : List String) (root : String) (es : List Entry) : List String :=
  (((entryFiles es).filter (fun f => !hiddenName f)).filter
      (fun f => !filesEx.contains f)).map (pathJoin root)

/-- The recursion of the walk below one level (build.py lines 119-127):
a subdirectory is descended into unless its (base)name is excluded or
hidden; each descended level contributes its kept files then its own
subdirectories, in os.walk's top-down order. -/
def zipWalkDirs (dirsEx filesEx : List String) (root : String) : List Entry → List String
  | [] => []
  | .file _ :: rest => zipWalkDirs dirsEx filesEx root rest
  | .dir d cs :: rest =>
    (if !dirsEx.contains d && !hiddenName d then
      keptFiles filesEx (pathJoin root d) cs ++ zipWalkDirs dirsEx filesEx (pathJoin root d) cs
    else []) ++ zipWalkDirs dirsEx filesEx root rest

/-- files_to_zip of _zip (build.py lines 116-132): the manifest the
top-down walk computes from the root directory. -/
def zipWalk (dirsEx filesEx : List String) (root : String) (es : List Entry) : List String :=
  keptFiles filesEx root es ++ zipWalkDirs dirsEx filesEx root es

/-- Modelled from the spec: `constants.WEB_STATIC_DIR`, the static-output
directory (its defining module is not among the given sources); build.py
itself also spells it ".web/_static" at line 203. -/
def WEB_STATIC_DIR : String := ".web/_static"

/-- Modelled from the spec: `constants.SITEMAP_CONFIG_FILE` (its defining
module is not among the given sources). -/
def SITEMAP_CONFIG_FILE : String := ".web/next-sitemap.js"

/-- Modelled from the spec: `constants.FRONTEND_ZIP`, the frontend archive
target (its defining module is not among the given sources). -/
def FRONTEND_ZIP : String := "frontend.zip"

/-- Modelled from the spec: `constants.BACKEND_ZIP`, the backend archive
target (its defining module is not among the given sources). -/
def BACKEND_ZIP : String := "backend.zip"

/-- Modelled from the spec: `templates.SITEMAP_CONFIG`, the fixed template
the JSON config is rendered into (its defining module is not among the
given sources). -/
def SITEMAP_CONFIG (config : String) : String := "module.exports = " ++ config

/-- The JSON content of generate_sitemap_config (build.py lines 81-86):
json.dumps({"siteUrl": deploy_url, "generateRobotsTxt": True}). -/
def sitemapJson (deployUrl : String) : String :=
  "\x7b\"siteUrl\": " ++ jsonStr deployUrl ++ ", \"generateRobotsTxt\": true\x7d"

/-- One observable step of export. -/
inductive ExportAction where
  | rmDir (path : String)
  | writeFile (path content : String)
  | runBuild (pm cmd : String)
  | showProgress (title : String) (checkpoints : List String)
  | zipArchive (component target root : String) (dirsEx filesEx : List String)
deriving DecidableEq, Repr

def isWriteAction : ExportAction → Bool
  | .writeFile _ _ => true
  | _ => false

def isRunBuildAction : ExportAction → Bool
  | .runBuild _ _ => true
  | _ => false

/-- generate_sitemap_config (build.py lines 72-89) as its write action. -/
def generate_sitemap_config (deployUrl : String) : ExportAction :=
  .writeFile SITEMAP_CONFIG_FILE (SITEMAP_CONFIG (sitemapJson deployUrl))

/-- The checkpoint phrases of export (build.py lines 177-187). -/
def exportCheckpoints : List String :=
  ["Linting and checking ", "Compiled successfully", "Route (pages)",
   "Collecting page data", "automatically rendered as static HTML",
   "Copying \"static build\" directory", "Copying \"public\" directory",
   "Finalizing page optimization", "Export successful"]

/-- export (build.py lines 151-213) as the trace of its side effects, in
program order: remove the static dir; when frontend is requested,
generate the sitemap config iff a deploy URL is supplied (switching the
command to "export-sitemap") and run the monitored build; when zipping,
archive the requested components excluding the archive targets
themselves. -/
def exportTrace (pm : String) (backend frontend zipFlag : Bool)
    (deploy_url : Option String) : List ExportAction :=
  [.rmDir WEB_STATIC_DIR] ++
  (if frontend then
    (match deploy_url with
     | some u => [generate_sitemap_config u]
     | none => []) ++
    [.runBuild pm (if deploy_url.isSome then "export-sitemap" else "export"),
     .showProgress "Creating Production Build" exportCheckpoints]
  else []) ++
  (if zipFlag then
    (if frontend then
      [.zipArchive "Frontend" FRONTEND_ZIP ".web/_static" [] [FRONTEND_ZIP, BACKEND_ZIP]]
    else []) ++
    (if backend then
      [.zipArchive "Backend" BACKEND_ZIP "." ["assets", "__pycache__"] [FRONTEND_ZIP, BACKEND_ZIP]]
    else [])
  else [])

/-- A file reachable from a directory listing through a chain of named
subdirectories. -/
inductive Reaches : List Entry → List String → String → Prop where
  | here {es : List Entry} {f : String} : Entry.file f ∈ es → Reaches es [] f
  | there {es : List Entry} {d : String} {cs : List Entry} {ds : List String} {f : String} :
      Entry.dir d cs ∈ es → Reaches cs ds f → Reaches es (d :: ds) f

/-- The tree of the spec's directory-walk example: a hidden directory, an
excluded directory, a plain file and a hidden file. -/
def exampleTree : List Entry :=
  [.dir ".hidden" [.file "x"], .dir "node_modules" [.file "pkg.js"],
   .file "a.txt", .file ".secret"]

/-- Concrete construction: an explicit frontend_port override beaten by
the FRONTEND_PORT environment variable. -/
def kwEnvWins : Kwargs := { app_name := some "myapp", frontend_port := some 1234 }

def envEnvWins : List (String × String) := [("FRONTEND_PORT", "4321")]

def cfgEnvWins : Config := { app_name := "myapp", frontend_port := 4321 }

/-- Concrete construction passing the deprecated db_config key (with the
required app_name supplied). -/
def kwDeprecated : Kwargs := { app_name := some "a", db_config := true }

def envDeprecated : List (String × String) := [("FRONTEND_PORT", "9")]

/-- Concrete construction passing the deprecated db_config key without
the required app_name. -/
def kwDeprecatedNoName : Kwargs := { db_config := true }

/-- A pre-existing manifest object with an unrelated key. -/
def stPre : JsonFile := .obj [("custom", .s "keep")]

/-- The manifest characterization following the claim's words: exactly
the files reachable from the root through subdirectories that are neither
named-excluded nor hidden, themselves neither hidden nor named-excluded,
at their joined path. -/
def manifestSpec (dE fE : List String) (root : String) (es : List Entry) (p : String) : Prop :=
  ∃ ds f, Reaches es ds f ∧
    (∀ d ∈ ds, dE.contains d = false ∧ hiddenName d = false) ∧
    hiddenName f = false ∧ fE.contains f = false ∧
    p = pathJoin (ds.foldl pathJoin root) f

/-! ## Theorems -/

/-- C10: every call to export removes the previous static-output
directory as its first step, unconditionally with respect to the backend,
frontend, zip and deploy_url arguments; in particular with frontend not
requested (second conjunct) the removal still happens. -/
theorem exportTrace_rm_static_first (pm : String) (b f z : Bool) (u : Option String) :
    (exportTrace pm b f z u).head? = some (.rmDir WEB_STATIC_DIR) ∧
    (exportTrace pm b false z u).head? = some (.rmDir WEB_STATIC_DIR) :=
  ⟨rfl, rfl⟩

/-- C9: in the run_frontend trace the asset watch is the first action, the
PORT variable (caller port, or the configured frontend port when none) is
set at index 3 and the spawn happens at index 4, spawning occurs nowhere
else, and both the watch index and the PORT index precede the spawn
index. -/
theorem run_frontend_order (fport : Int) (pm : String) (port : Option String) :
    (run_frontend fport pm port).get? 0 = some .startAssetWatch ∧
    (run_frontend fport pm port).get? 3 =
      some (.setEnvVar "PORT" (match port with | none => toString fport | some p => p)) ∧
    (run_frontend fport pm port).get? 4 = some (.spawn [pm, "run", "dev"]) ∧
    (∀ i : Nat, ((run_frontend fport pm port).get? i).any isSpawn = true → i = 4) ∧
    ((0 : Nat) < 4 ∧ (3 : Nat) < 4) := by
  refine ⟨rfl, rfl, rfl, ?_, by decide⟩
  intro i h
  match i with
  | 0 | 1 | 2 | 3 => simp [run_frontend, isSpawn] at h
  | 4 => rfl
  | n + 5 => simp [run_frontend, List.get?] at h

/-- C5 counterexample: at host "h", port 8000, log level error, 4 workers
and timeout 120, the final token of the non-Windows production command is
the worker count "4", not the caller's log level. -/
theorem run_backend_prod_last_token :
    (run_backend_prod false 4 120 "app" "h" 8000 .error).1.getLast? = some "4" ∧
    ((some "4" : Option String) == some (LogLevel.value .error)) = false := by
  exact ⟨by decide, by decide⟩

/-- C5 (amended): on non-Windows the production command is a gunicorn
invocation with the async worker class, preloading, the configured
timeout, a host:port bind, threads and workers both the derived worker
number, and the caller's log level appended after the base command (as
the final log-level flag, overriding the base's hardcoded critical) but
followed by the worker-count flags; the skip-recompilation environment
flag is set.  On Windows it is the uvicorn invocation with the configured
keep-alive timeout, host/port flags and the same environment flag. -/
theorem run_backend_prod_spec (n : Nat) (T : Int) (a h : String) (p : Int) (lv : LogLevel) :
    (run_backend_prod false n T a h p lv).1.take 8 =
      ["gunicorn", "--worker-class", "uvicorn.workers.UvicornH11Worker", "--preload",
       "--timeout", toString T, "--log-level", "critical"] ∧
    List.IsInfix ["--bind", h ++ ":" ++ toString p, "--threads", toString n]
      (run_backend_prod false n T a h p lv).1 ∧
    (∃ pre, (run_backend_prod false n T a h p lv).1 =
      pre ++ ["--log-level", LogLevel.value lv, "--workers", toString n]) ∧
    (run_backend_prod false n T a h p lv).2 = [(SKIP_COMPILE_ENV_VAR, "yes")] ∧
    (run_backend_prod true n T a h p lv).1 =
      ["uvicorn", "--timeout-keep-alive", toString T, "--host", h, "--port", toString p,
       a ++ "." ++ a ++ ":" ++ APP_VAR, "--log-level", LogLevel.value lv,
       "--workers", toString n] ∧
    (run_backend_prod true n T a h p lv).2 = [(SKIP_COMPILE_ENV_VAR, "yes")] := by
  refine ⟨rfl, ?_, ?_, rfl, rfl, rfl⟩
  · exact ⟨["gunicorn", "--worker-class", "uvicorn.workers.UvicornH11Worker", "--preload",
      "--timeout", toString T, "--log-level", "critical"],
      [a ++ "." ++ a ++ ":" ++ APP_VAR ++ "()", "--log-level", LogLevel.value lv,
       "--workers", toString n], by simp [run_backend_prod, APP_VAR]⟩
  · exact ⟨["gunicorn", "--worker-class", "uvicorn.workers.UvicornH11Worker", "--preload",
      "--timeout", toString T, "--log-level", "critical", "--bind", h ++ ":" ++ toString p,
      "--threads", toString n, a ++ "." ++ a ++ ":" ++ APP_VAR ++ "()"],
      by simp [run_backend_prod, APP_VAR]⟩

/-- C6 counterexample: with frontend export not requested (and a deploy
URL supplied), the trace is only the static-dir removal: no export
command runs at all, in particular not the plain "export". -/
theorem exportTrace_frontend_false_no_build :
    exportTrace "npm" true false false (some "https://x.com") = [.rmDir WEB_STATIC_DIR] ∧
    ((exportTrace "npm" true false false (some "https://x.com")).contains
      (.runBuild "npm" "export")) = false :=
  ⟨rfl, by decide⟩

/-- C6 (amended): when frontend export is requested with a deploy URL,
the sitemap config (the JSON with siteUrl and generateRobotsTxt rendered
into the template) is written before the "export-sitemap" build; when
frontend is requested without a deploy URL the plain "export" command runs
and no sitemap config is written; when frontend is not requested nothing
is written and no export command runs at all. -/
theorem exportTrace_sitemap_spec (pm : String) (b z : Bool) (u : String) (uo : Option String) :
    (exportTrace pm b true z (some u)).take 3 =
      [.rmDir WEB_STATIC_DIR,
       .writeFile SITEMAP_CONFIG_FILE (SITEMAP_CONFIG (sitemapJson u)),
       .runBuild pm "export-sitemap"] ∧
    (exportTrace pm b true z none).take 2 = [.rmDir WEB_STATIC_DIR, .runBuild pm "export"] ∧
    (exportTrace pm b true z none).filter isWriteAction = [] ∧
    (exportTrace pm b false z uo).filter isWriteAction = [] ∧
    (exportTrace pm b false z uo).filter isRunBuildAction = [] :=
  ⟨rfl, rfl, by cases b <;> cases z <;> rfl, by cases b <;> cases z <;> rfl,
   by cases b <;> cases z <;> rfl⟩

/-- C3: get_url omits credentials entirely whenever the username is not
truthy, whatever the password; the host segment is host:port exactly when
host and port are both truthy and collapses to the bare host (or "")
otherwise; and the two concrete renderings of the spec hold, with the
space of "a b" quoted as "+" and the "@" of "p@ss" as "%40". -/
theorem DBConfig.get_url_spec :
    (∀ c : DBConfig, pyTruthyStr c.username = false →
      DBConfig.get_url c = c.engine ++ "://" ++ DBConfig.hostPart c ++ "/" ++ c.database) ∧
    (∀ c : DBConfig, pyTruthyStr c.host = true → pyTruthyInt c.port = true →
      DBConfig.hostPart c = fstr c.host ++ ":" ++ fint c.port) ∧
    (∀ c : DBConfig, (pyTruthyStr c.host && pyTruthyInt c.port) = false →
      DBConfig.hostPart c = c.host.getD "") ∧
    DBConfig.get_url
      { engine := "postgresql", username := some "a b", password := some "p@ss",
        host := some "h", port := some 5432, database := "d" } =
      "postgresql://a+b:p%40ss@h:5432/d" ∧
    DBConfig.get_url { engine := "sqlite", database := "reflex.db" } = "sqlite:///reflex.db" := by
  refine ⟨?_, ?_, ?_, by decide, by decide⟩
  · intro c h
    simp [DBConfig.get_url, h]
  · intro c h1 h2
    simp [DBConfig.hostPart, h1, h2]
  · intro c h
    simp [DBConfig.hostPart, h]

/-- C3 witness: a password supplied without a username is dropped from
the rendered URL. -/
theorem DBConfig.get_url_spec_check :
    DBConfig.get_url
      { engine := "postgresql", username := some "", password := some "secret",
        host := some "h", port := some 5432, database := "d" } =
      "postgresql://h:5432/d" := by
  rw [DBConfig.get_url_spec.1
    { engine := "postgresql", username := some "", password := some "secret",
      host := some "h", port := some 5432, database := "d" } rfl]
  decide

/-- C4 counterexample: for the spec's example line, which contains the
ready marker but no "url: " separator, the emitted ready event carries
the whole line, not the trailing URL token "http://localhost:3000". -/
theorem readyUrls_no_url_marker :
    readyUrls ["ready started server on http://localhost:3000"] =
      ["ready started server on http://localhost:3000"] ∧
    (("ready started server on http://localhost:3000" : String) ==
      "http://localhost:3000") = false :=
  ⟨rfl, by decide⟩

/-- C4 (amended): every streamed line containing the marker phrase emits
exactly one ready event, whose payload is the stripped text after the
last "url: " occurrence in the line - the whole stripped line when
"url: " is absent; only such lines emit events; and concretely a line
with "url: " yields the trailing URL while the spec's bare example line
yields itself. -/
theorem readyUrls_spec :
    (∀ (lines : List String) (line : String), line ∈ lines →
      pyIn "ready started server on" line = true →
      extractReadyUrl line ∈ readyUrls lines) ∧
    (∀ (lines : List String) (u : String), u ∈ readyUrls lines →
      ∃ line, line ∈ lines ∧ pyIn "ready started server on" line = true ∧
        u = extractReadyUrl line) ∧
    readyUrls ["info  - ready started server on 0.0.0.0:3000, url: http://localhost:3000"] =
      ["http://localhost:3000"] ∧
    readyUrls ["ready started server on http://localhost:3000"] =
      ["ready started server on http://localhost:3000"] := by
  refine ⟨?_, ?_, rfl, rfl⟩
  · intro lines line hmem hmark
    unfold readyUrls
    rw [List.mem_filterMap]
    exact ⟨line, hmem, by simp [hmark]⟩
  · intro lines u hu
    unfold readyUrls at hu
    rw [List.mem_filterMap] at hu
    obtain ⟨line, hl, hf⟩ := hu
    by_cases hm : pyIn "ready started server on" line = true
    · refine ⟨line, hl, hm, ?_⟩
      simp [hm] at hf
      exact hf.symm
    · simp [hm] at hf

/-- C4 witness: the amended extraction at a concrete line containing
"url: ". -/
theorem readyUrls_spec_check :
    extractReadyUrl "info  - ready started server on 0.0.0.0:3000, url: http://localhost:3000" ∈
      readyUrls ["info  - ready started server on 0.0.0.0:3000, url: http://localhost:3000"] :=
  readyUrls_spec.1 _ _ (by simp) rfl

/-- C2 counterexample: a construction passing the deprecated db_config
key but no app_name fails with pydantic's missing-field validation error,
not with the deprecated-option error naming db_config. -/
theorem resolve_deprecated_missing_app_name :
    Config.resolve kwDeprecatedNoName [] = .error (.missingField "app_name") ∧
    isDeprecatedError (Config.resolve kwDeprecatedNoName []) = false :=
  ⟨rfl, rfl⟩

/-- C2 (amended): whenever a deprecated key (db_config, admin_dash or
env_path) is among the kwargs, resolution never returns a configuration,
the outcome is independent of the environment (so no environment override
is applied), and - provided base construction passes, i.e. the required
app_name is supplied - the failure is exactly the deprecated-option error
naming the first offending key and its replacement message. -/
theorem resolve_deprecated_fails (kw : Kwargs) (env : List (String × String))
    (hdep : deprecatedRequested kw = true) :
    isOkE (Config.resolve kw env) = false ∧
    Config.resolve kw env = Config.resolve kw [] ∧
    (∀ a, kw.app_name = some a →
      Config.resolve kw env =
        .error (.deprecated (firstDeprecated kw).1 (firstDeprecated kw).2)) := by
  cases hname : kw.app_name with
  | none =>
    refine ⟨?_, ?_, ?_⟩ <;>
      simp [Config.resolve, pydanticInit, hname, isOkE]
  | some a0 =>
    cases hdb : kw.db_config <;> cases hda : kw.admin_dash <;> cases hep : kw.env_path <;>
      simp_all [Config.resolve, pydanticInit, check_deprecated_values, isOkE,
        firstDeprecated, deprecatedRequested]

/-- C2 witness: the concrete deprecated construction fails identically
with and without environment entries, with the db_config message. -/
theorem resolve_deprecated_fails_check :
    isOkE (Config.resolve kwDeprecated envDeprecated) = false ∧
    Config.resolve kwDeprecated envDeprecated = Config.resolve kwDeprecated [] ∧
    Config.resolve kwDeprecated envDeprecated =
      .error (.deprecated "db_config" "db_config is deprecated - use db_url instead") := by
  have H := resolve_deprecated_fails kwDeprecated envDeprecated rfl
  exact ⟨H.1, H.2.1, H.2.2 "a" rfl⟩

theorem jLookup_dictSet_self (o : JObj) (k : String) (v : JVal) :
    jLookup (dictSet o k v) k = some v := by
  induction o with
  | nil => simp [dictSet, jLookup]
  | cons kv rest ih =>
    by_cases hk : kv.1 == k
    · simp [dictSet, hk, jLookup]
    · simp only [dictSet, hk, if_false, Bool.false_eq_true]
      simpa [jLookup, hk] using ih

theorem jLookup_dictSet_other (o : JObj) (k k' : String) (v : JVal) (hne : k' ≠ k) :
    jLookup (dictSet o k v) k' = jLookup o k' := by
  have hne' : (k == k') = false := beq_eq_false_iff_ne.mpr fun h => hne h.symm
  induction o with
  | nil => simp [dictSet, jLookup, List.find?, hne']
  | cons kv rest ih =>
    by_cases hk : kv.1 == k
    · have hkv : kv.1 = k := by simpa using hk
      have h1 : (kv.1 == k') = false := by rw [hkv]; exact hne'
      simp [dictSet, hk, jLookup, List.find?, h1, hne']
    · by_cases hk' : kv.1 == k'
      · simp [dictSet, hk, jLookup, List.find?, hk']
      · simp only [dictSet, hk, if_false, Bool.false_eq_true]
        simpa [jLookup, List.find?, hk'] using ih

/-- C8: after writing the env manifest (upload/event/ping keys) and then
the project-hash manifest to the same JSON file state, the file holds a
single object containing all four keys with the written values; any
pre-existing key other than the four written ones keeps its value (the
writes merge, they do not overwrite); and a missing or empty file behaves
exactly as a file holding the empty object. -/
theorem update_json_file_merge (st : JsonFile) (u e p : String) (h : Int) :
    isObjF (set_reflex_project_hash h (set_env_json u e p st)) = true ∧
    jLookupF (set_reflex_project_hash h (set_env_json u e p st)) "uploadUrl" =
      some (.s u) ∧
    jLookupF (set_reflex_project_hash h (set_env_json u e p st)) "eventUrl" =
      some (.s e) ∧
    jLookupF (set_reflex_project_hash h (set_env_json u e p st)) "pingUrl" =
      some (.s p) ∧
    jLookupF (set_reflex_project_hash h (set_env_json u e p st)) "project_hash" =
      some (.n h) ∧
    (∀ k v, k ≠ "uploadUrl" → k ≠ "eventUrl" → k ≠ "pingUrl" → k ≠ "project_hash" →
      jLookup (loadedObj st) k = some v →
      jLookupF (set_reflex_project_hash h (set_env_json u e p st)) k = some v) ∧
    (∀ upd, update_json_file .missing upd = update_json_file (.obj []) upd ∧
      update_json_file JsonFile.empty upd = update_json_file (.obj []) upd) := by
  refine ⟨rfl, ?_, ?_, ?_, ?_, ?_, fun upd => ⟨rfl, rfl⟩⟩ <;>
    simp only [set_reflex_project_hash, set_env_json, update_json_file, dictUpdate,
      List.foldl, jLookupF, loadedObj]
  · rw [jLookup_dictSet_other _ _ _ _ (by decide), jLookup_dictSet_other _ _ _ _ (by decide),
      jLookup_dictSet_other _ _ _ _ (by decide), jLookup_dictSet_self]
  · rw [jLookup_dictSet_other _ _ _ _ (by decide), jLookup_dictSet_other _ _ _ _ (by decide),
      jLookup_dictSet_self]
  · rw [jLookup_dictSet_other _ _ _ _ (by decide), jLookup_dictSet_self]
  · rw [jLookup_dictSet_self]
  · intro k v h1 h2 h3 h4 hv
    rw [jLookup_dictSet_other _ _ _ _ h4, jLookup_dictSet_other _ _ _ _ h3,
      jLookup_dictSet_other _ _ _ _ h2, jLookup_dictSet_other _ _ _ _ h1, hv]

/-- C8 witness: a concrete pre-existing object keeps its unrelated key
while receiving the merged manifest keys. -/
theorem update_json_file_merge_check :
    jLookupF (set_reflex_project_hash 7 (set_env_json "u" "e" "p" stPre)) "custom" =
      some (.s "keep") ∧
    jLookupF (set_reflex_project_hash 7 (set_env_json "u" "e" "p" stPre)) "uploadUrl" =
      some (.s "u") ∧
    jLookupF (set_reflex_project_hash 7 (set_env_json "u" "e" "p" stPre)) "project_hash" =
      some (.n 7) := by
  have H := update_json_file_merge stPre "u" "e" "p" 7
  exact ⟨H.2.2.2.2.2.1 "custom" (.s "keep") (by decide) (by decide) (by decide) (by decide) rfl,
    H.2.1, H.2.2.2.2.1⟩

theorem getField_setField_ne (c : Config) (g f : CField) (v : FieldVal) (hne : g ≠ f) :
    getField (setField c g v) f = getField c f := by
  cases g <;> cases f <;> first
    | exact absurd rfl hne
    | (cases v <;> rfl)

theorem getField_setField_ok (c : Config) (f : CField) (raw : String) (v : FieldVal)
    (hco : coerceVal f raw = .ok v) : getField (setField c f v) f = v := by
  cases f <;> simp only [coerceVal] at hco <;> (try split at hco) <;>
    first
      | (injection hco with hv; subst hv; rfl)
      | simp at hco

theorem applyEnvVar_ok_ne (env : List (String × String)) (c c' : Config) (g f : CField)
    (hne : g ≠ f) (happ : applyEnvVar env c g = .ok c') : getField c' f = getField c f := by
  unfold applyEnvVar at happ
  cases hl : env.lookup (pyUpper (fieldName g)) with
  | none =>
    simp only [hl] at happ
    injection happ with hc
    rw [← hc]
  | some raw =>
    simp only [hl] at happ
    cases hco : coerceVal g raw with
    | error e => simp only [hco] at happ; simp at happ
    | ok v =>
      simp only [hco] at happ
      injection happ with hc
      rw [← hc]
      exact getField_setField_ne c g f v hne

theorem updateFields_preserve (env : List (String × String)) (f : CField) :
    ∀ (l : List CField), f ∉ l → ∀ (c c' : Config),
      updateFieldsFromEnv env c l = .ok c' → getField c' f = getField c f := by
  intro l
  induction l with
  | nil =>
    intro _ c c' hfold
    injection hfold with hc
    rw [hc]
  | cons g rest ih =>
    intro hnotin c c' hfold
    simp only [updateFieldsFromEnv] at hfold
    cases happ : applyEnvVar env c g with
    | error e => simp only [happ] at hfold; simp at hfold
    | ok c1 =>
      simp only [happ] at hfold
      have h1 := ih (fun hm => hnotin (List.mem_cons_of_mem _ hm)) c1 c' hfold
      rw [h1]
      exact applyEnvVar_ok_ne env c c1 g f
        (fun he => hnotin (he ▸ List.mem_cons_self _ _)) happ

theorem updateFields_sets (env : List (String × String)) (f : CField) (raw : String)
    (v : FieldVal) (hlook : env.lookup (pyUpper (fieldName f)) = some raw)
    (hco : coerceVal f raw = .ok v) :
    ∀ (l : List CField), f ∈ l → l.Nodup → ∀ (c c' : Config),
      updateFieldsFromEnv env c l = .ok c' → getField c' f = v := by
  intro l
  induction l with
  | nil => intro hmem; cases hmem
  | cons g rest ih =>
    intro hmem hnd c c' hfold
    simp only [updateFieldsFromEnv] at hfold
    by_cases hgf : g = f
    · subst hgf
      have happ : applyEnvVar env c g = .ok (setField c g v) := by
        unfold applyEnvVar
        simp only [hlook, hco]
      simp only [happ] at hfold
      have hrest : g ∉ rest := (List.nodup_cons.mp hnd).1
      rw [updateFields_preserve env g rest hrest _ _ hfold]
      exact getField_setField_ok c g raw v hco
    · have hmem' : f ∈ rest := by
        cases List.mem_cons.mp hmem with
        | inl he => exact absurd he.symm hgf
        | inr hm => exact hm
      cases happ : applyEnvVar env c g with
      | error e => simp only [happ] at hfold; simp at hfold
      | ok c1 =>
        simp only [happ] at hfold
        exact ih hmem' (List.nodup_cons.mp hnd).2 c1 c' hfold

/-- C1: whenever resolution succeeds, every field whose upper-cased name
is present in the environment with a coercible value ends up holding
exactly the coerced environment value - whatever the declared default and
whatever explicit construction-time override was passed, since
update_from_env runs last. -/
theorem resolve_env_override_wins (kw : Kwargs) (env : List (String × String))
    (f : CField) (raw : String) (v : FieldVal) (c : Config)
    (hres : Config.resolve kw env = .ok c)
    (hlook : env.lookup (pyUpper (fieldName f)) = some raw)
    (hco : coerceVal f raw = .ok v) :
    getField c f = v := by
  unfold Config.resolve at hres
  cases hinit : pydanticInit kw with
  | error e => rw [hinit] at hres; simp at hres
  | ok c0 =>
    rw [hinit] at hres
    cases hchk : check_deprecated_values kw with
    | error e => rw [hchk] at hres; simp at hres
    | ok u =>
      rw [hchk] at hres
      exact updateFields_sets env f raw v hlook hco fieldList
        (by cases f <;> decide) (by decide) c0 c hres

/-- C1 witness: FRONTEND_PORT=4321 beats both the default 3000 and the
explicit frontend_port=1234 override. -/
theorem resolve_env_override_wins_check :
    Config.resolve kwEnvWins envEnvWins = .ok cfgEnvWins ∧
    getField cfgEnvWins CField.frontend_port = FieldVal.i 4321 :=
  ⟨rfl, resolve_env_override_wins kwEnvWins envEnvWins CField.frontend_port "4321"
    (FieldVal.i 4321) cfgEnvWins rfl rfl rfl⟩

theorem reaches_nil_iff (es : List Entry) (f : String) :
    Reaches es [] f ↔ Entry.file f ∈ es := by
  constructor
  · intro h
    cases h with
    | here hm => exact hm
  · exact Reaches.here

theorem reaches_weaken (e : Entry) {es : List Entry} {ds : List String} {f : String}
    (hne : ds ≠ []) (hr : Reaches es ds f) : Reaches (e :: es) ds f := by
  cases hr with
  | here hm => exact absurd rfl hne
  | there hm hr2 => exact Reaches.there (List.mem_cons_of_mem _ hm) hr2

theorem mem_keptFiles (fE : List String) (root : String) (es : List Entry) (p : String) :
    p ∈ keptFiles fE root es ↔
      ∃ f, Entry.file f ∈ es ∧ hiddenName f = false ∧ fE.contains f = false ∧
        p = pathJoin root f := by
  unfold keptFiles
  constructor
  · intro hp
    obtain ⟨f, hf, hpf⟩ := List.mem_map.mp hp
    obtain ⟨hf2, hex⟩ := List.mem_filter.mp hf
    obtain ⟨hf3, hh⟩ := List.mem_filter.mp hf2
    obtain ⟨e, he, hge⟩ := List.mem_filterMap.mp hf3
    cases e with
    | dir d cs => simp [entryFiles] at hge
    | file n =>
      have hn : n = f := by simpa [entryFiles] using hge
      subst hn
      exact ⟨n, he, by simpa using hh, by simpa using hex, hpf.symm⟩
  · rintro ⟨f, hfe, hh, hex, rfl⟩
    refine List.mem_map.mpr ⟨f, ?_, rfl⟩
    refine List.mem_filter.mpr ⟨List.mem_filter.mpr ⟨?_, by simp [hh]⟩, ?_⟩
    · exact List.mem_filterMap.mpr ⟨.file f, hfe, rfl⟩
    · simp only [Bool.not_eq_true']
      exact hex

theorem reaches_cons_iff (es : List Entry) (d : String) (ds : List String) (f : String) :
    Reaches es (d :: ds) f ↔ ∃ cs, Entry.dir d cs ∈ es ∧ Reaches cs ds f := by
  constructor
  · intro h
    cases h with
    | there hm hr => exact ⟨_, hm, hr⟩
  · rintro ⟨cs, hm, hr⟩
    exact Reaches.there hm hr

theorem mem_zipWalkDirs (dE fE : List String) :
    ∀ (es : List Entry) (root p : String),
      p ∈ zipWalkDirs dE fE root es ↔
        ∃ ds f, ds ≠ [] ∧ Reaches es ds f ∧
          (∀ d ∈ ds, dE.contains d = false ∧ hiddenName d = false) ∧
          hiddenName f = false ∧ fE.contains f = false ∧
          p = pathJoin (ds.foldl pathJoin root) f
  | [], root, p => by
    constructor
    · intro hp
      rw [zipWalkDirs.eq_1] at hp
      exact absurd hp (List.not_mem_nil _)
    · rintro ⟨ds, f, hne, hr, -⟩
      cases hr with
      | here hm => exact absurd hm (List.not_mem_nil _)
      | there hm _ => exact absurd hm (List.not_mem_nil _)
  | .file n :: rest, root, p => by
    have IH := mem_zipWalkDirs dE fE rest root p
    rw [zipWalkDirs.eq_2, IH]
    constructor
    · rintro ⟨ds, f, hne, hr, hc⟩
      exact ⟨ds, f, hne, reaches_weaken _ hne hr, hc⟩
    · rintro ⟨ds, f, hne, hr, hc⟩
      cases ds with
      | nil => exact absurd rfl hne
      | cons d0 ds2 =>
        obtain ⟨cs0, hm0, hr2⟩ := (reaches_cons_iff _ _ _ _).mp hr
        cases List.mem_cons.mp hm0 with
        | inl he => exact absurd he (by simp)
        | inr hm2 =>
          exact ⟨d0 :: ds2, f, hne, (reaches_cons_iff _ _ _ _).mpr ⟨cs0, hm2, hr2⟩, hc⟩
  | .dir d cs :: rest, root, p => by
    have IH1 := mem_zipWalkDirs dE fE cs (pathJoin root d) p
    have IH2 := mem_zipWalkDirs dE fE rest root p
    by_cases hall : (!dE.contains d && !hiddenName d) = true
    · have hsplit : dE.contains d = false ∧ hiddenName d = false := by
        simpa [Bool.and_eq_true, Bool.not_eq_true'] using hall
      rw [zipWalkDirs.eq_3, if_pos hall, List.append_assoc, List.mem_append, List.mem_append,
        mem_keptFiles, IH1, IH2]
      constructor
      · rintro (⟨f, hfe, hh, hex, hp⟩ | ⟨ds2, f, hne2, hr2, hc2, hh, hex, hp⟩ |
          ⟨ds, f, hne, hr, hc, hh, hex, hp⟩)
        · refine ⟨[d], f, by simp,
            (reaches_cons_iff _ _ _ _).mpr ⟨cs, List.mem_cons_self _ _, Reaches.here hfe⟩,
            ?_, hh, hex, by simpa [List.foldl_cons] using hp⟩
          intro x hx
          rw [List.mem_singleton] at hx
          subst hx
          exact hsplit
        · refine ⟨d :: ds2, f, by simp,
            (reaches_cons_iff _ _ _ _).mpr ⟨cs, List.mem_cons_self _ _, hr2⟩, ?_, hh, hex,
            by simpa [List.foldl_cons] using hp⟩
          intro x hx
          cases List.mem_cons.mp hx with
          | inl he2 => exact he2 ▸ hsplit
          | inr hx2 => exact hc2 x hx2
        · exact ⟨ds, f, hne, reaches_weaken _ hne hr, hc, hh, hex, hp⟩
      · rintro ⟨ds, f, hne, hr, hc, hh, hex, hp⟩
        cases ds with
        | nil => exact absurd rfl hne
        | cons d0 ds2 =>
          obtain ⟨cs0, hm0, hr2⟩ := (reaches_cons_iff _ _ _ _).mp hr
          cases List.mem_cons.mp hm0 with
          | inl he =>
            obtain ⟨hd0, hcs0⟩ : d0 = d ∧ cs0 = cs := by simpa using he
            rw [hcs0] at hr2
            rw [hd0] at hp
            cases ds2 with
            | nil =>
              exact Or.inl ⟨f, (reaches_nil_iff cs f).mp hr2, hh, hex,
                by simpa [List.foldl_cons] using hp⟩
            | cons d2 ds3 =>
              refine Or.inr (Or.inl ⟨d2 :: ds3, f, by simp, hr2, ?_, hh, hex,
                by simpa [List.foldl_cons] using hp⟩)
              intro x hx
              exact hc x (List.mem_cons_of_mem _ hx)
          | inr hm2 =>
            exact Or.inr (Or.inr ⟨d0 :: ds2, f, hne,
              (reaches_cons_iff _ _ _ _).mpr ⟨cs0, hm2, hr2⟩, hc, hh, hex, hp⟩)
    · rw [zipWalkDirs.eq_3, if_neg hall, List.nil_append, IH2]
      constructor
      · rintro ⟨ds, f, hne, hr, hc⟩
        exact ⟨ds, f, hne, reaches_weaken _ hne hr, hc⟩
      · rintro ⟨ds, f, hne, hr, hc, hh, hex, hp⟩
        cases ds with
        | nil => exact absurd rfl hne
        | cons d0 ds2 =>
          obtain ⟨cs0, hm0, hr2⟩ := (reaches_cons_iff _ _ _ _).mp hr
          cases List.mem_cons.mp hm0 with
          | inl he =>
            have hd0 : d0 = d := by injection he
            have hcd := hc d0 (List.mem_cons_self _ _)
            have hcontra : (!dE.contains d0 && !hiddenName d0) = true := by
              rw [hcd.1, hcd.2]
              rfl
            rw [hd0] at hcontra
            exact absurd hcontra hall
          | inr hm2 =>
            exact ⟨d0 :: ds2, f, hne,
              (reaches_cons_iff _ _ _ _).mpr ⟨cs0, hm2, hr2⟩, hc, hh, hex, hp⟩

/-- C7: the computed zip manifest contains exactly the files reachable
from the root through subdirectory chains avoiding excluded and hidden
directory names, the files themselves neither hidden nor in the excluded
file set, at their joined paths; on the spec's example tree (with
node_modules the named excluded directory) the manifest is exactly
["./a.txt"]; and export's backend archive call excludes the two archive
targets themselves along with the assets and __pycache__ directories. -/
theorem zipWalk_manifest_spec :
    (∀ (dE fE : List String) (root : String) (es : List Entry) (p : String),
      p ∈ zipWalk dE fE root es ↔ manifestSpec dE fE root es p) ∧
    zipWalk ["node_modules"] [FRONTEND_ZIP, BACKEND_ZIP] "." exampleTree = ["./a.txt"] ∧
    (∀ (pm : String) (f : Bool) (u : Option String),
      ExportAction.zipArchive "Backend" BACKEND_ZIP "." ["assets", "__pycache__"]
        [FRONTEND_ZIP, BACKEND_ZIP] ∈ exportTrace pm true f true u) := by
  refine ⟨?_, ?_, ?_⟩
  · intro dE fE root es p
    unfold zipWalk manifestSpec
    rw [List.mem_append, mem_keptFiles, mem_zipWalkDirs]
    constructor
    · rintro (⟨f, hfe, hh, hex, hp⟩ | ⟨ds, f, hne, hr, hc, hh, hex, hp⟩)
      · exact ⟨[], f, Reaches.here hfe, by simp, hh, hex, by simpa using hp⟩
      · exact ⟨ds, f, hr, hc, hh, hex, hp⟩
    · rintro ⟨ds, f, hr, hc, hh, hex, hp⟩
      cases ds with
      | nil => exact Or.inl ⟨f, (reaches_nil_iff es f).mp hr, hh, hex, by simpa using hp⟩
      | cons d0 ds2 => exact Or.inr ⟨d0 :: ds2, f, by simp, hr, hc, hh, hex, hp⟩
  · simp [zipWalk, zipWalkDirs, keptFiles, entryFiles, pathJoin, hiddenName, exampleTree,
      FRONTEND_ZIP, BACKEND_ZIP]
  · intro pm f u
    cases f <;> cases u <;> simp [exportTrace, generate_sitemap_config]

/-- C7 witness: "./a.txt" is in the example manifest because "a.txt" is a
reachable, non-hidden, non-excluded file at the root. -/
theorem zipWalk_manifest_check :
    ("./a.txt" : String) ∈ zipWalk ["node_modules"] [FRONTEND_ZIP, BACKEND_ZIP] "." exampleTree := by
  apply (zipWalk_manifest_spec.1 ["node_modules"] [FRONTEND_ZIP, BACKEND_ZIP] "."
    exampleTree "./a.txt").mpr
  unfold manifestSpec
  refine ⟨[], "a.txt", Reaches.here ?_, ?_, rfl, by decide, rfl⟩
  · simp [exampleTree]
  · simp
